import Mathlib

/-!
Shallow embedding of the workflow state machine of the `relate` research
assistant (src/agent/app/agent.py, src/agent/app/memory.py,
src/agent/app/state.py), together with proofs about its step functions,
routers and the episodic-memory advisor.

External collaborators (the language model, the web-search provider, the
episode store) are black boxes: their outputs enter the embedded functions
as explicit parameters.  A Python function that can raise is embedded as a
function into `Option`, with `none` standing for the raised exception.
Fresh message identifiers that the workflow engine would assign to newly
created messages are passed in as `Nat` parameters.
-/

namespace Relate

/-- Kind of one conversation entry: HumanMessage, AIMessage or ToolMessage. -/
inductive MsgKind where
  | human
  | ai
  | tool
deriving DecidableEq, Repr

/-- One conversation entry.  The `id` field models the engine-assigned
message identifier used by the add-messages reducer when merging updates. -/
structure Message where
  id : Nat
  kind : MsgKind
  content : String
  tool_call_id : String := ""
deriving DecidableEq, Repr

/-- HumanMessage with a given engine id. -/
def humanMsg (id : Nat) (content : String) : Message :=
  { id := id, kind := MsgKind.human, content := content }

/-- AIMessage with a given engine id. -/
def aiMsg (id : Nat) (content : String) : Message :=
  { id := id, kind := MsgKind.ai, content := content }

/-- ToolMessage with a given engine id and tool call id. -/
def toolMsg (id : Nat) (content : String) (tcid : String) : Message :=
  { id := id, kind := MsgKind.tool, content := content, tool_call_id := tcid }

/-- One entry of `search_results`: the dict with keys query and results
appended by `search_execution_node` after each completed search. -/
structure SearchResult where
  query : String
  results : String
deriving DecidableEq, Repr

/-- `AgentState` from src/agent/app/state.py, with the per-field defaults of
`create_state_update` already applied (the Python dict may omit keys; every
read in agent.py goes through `state.get(key, default)`). -/
structure AgentState where
  messages : List Message
  search_count : Nat
  original_query : String
  planned_queries : List String
  search_results : List SearchResult
  needs_search : Bool
  user_feedback : String
deriving DecidableEq, Repr

/-- The dict a node returns to the engine: a partial update over the seven
state keys, `none` meaning the key is absent from the returned dict. -/
structure StateUpdate where
  messages : Option (List Message) := none
  search_count : Option Nat := none
  original_query : Option String := none
  planned_queries : Option (List String) := none
  search_results : Option (List SearchResult) := none
  needs_search : Option Bool := none
  user_feedback : Option String := none
deriving DecidableEq, Repr

/-- A state viewed as the dict holding all seven keys (what `return state`
inside a node hands back to the engine). -/
def stateToUpdate (s : AgentState) : StateUpdate :=
  { messages := some s.messages
    search_count := some s.search_count
    original_query := some s.original_query
    planned_queries := some s.planned_queries
    search_results := some s.search_results
    needs_search := some s.needs_search
    user_feedback := some s.user_feedback }

/-- `create_state_update` from agent.py: starts from the full incoming state
and overrides exactly the keys passed as keyword arguments, producing a dict
that carries all seven keys. -/
def create_state_update (state : AgentState) (updates : StateUpdate) : StateUpdate :=
  { messages := some (updates.messages.getD state.messages)
    search_count := some (updates.search_count.getD state.search_count)
    original_query := some (updates.original_query.getD state.original_query)
    planned_queries := some (updates.planned_queries.getD state.planned_queries)
    search_results := some (updates.search_results.getD state.search_results)
    needs_search := some (updates.needs_search.getD state.needs_search)
    user_feedback := some (updates.user_feedback.getD state.user_feedback) }

/-- Whether an update dict carries all seven state keys. -/
def StateUpdate.isComplete (u : StateUpdate) : Bool :=
  u.messages.isSome && u.search_count.isSome && u.original_query.isSome &&
    u.planned_queries.isSome && u.search_results.isSome && u.needs_search.isSome &&
    u.user_feedback.isSome

/-- One step of the add-messages reducer: a message whose id already occurs
in the accumulated list replaces the entry with that id, otherwise it is
appended. -/
def addOneMessage (acc : List Message) (m : Message) : List Message :=
  if acc.any (fun x => x.id == m.id) then
    acc.map (fun x => if x.id == m.id then m else x)
  else
    acc ++ [m]

/-- The add-messages reducer on the `messages` channel of `AgentState`. -/
def addMessages (old new : List Message) : List Message :=
  new.foldl addOneMessage old

/-- The engine applying a node-returned dict to the current state: the
`messages` channel merges through the add-messages reducer, every other
channel is last-value (replaced when the key is present). -/
def applyUpdate (s : AgentState) (u : StateUpdate) : AgentState :=
  { messages :=
      match u.messages with
      | none => s.messages
      | some new => addMessages s.messages new
    search_count := u.search_count.getD s.search_count
    original_query := u.original_query.getD s.original_query
    planned_queries := u.planned_queries.getD s.planned_queries
    search_results := u.search_results.getD s.search_results
    needs_search := u.needs_search.getD s.needs_search
    user_feedback := u.user_feedback.getD s.user_feedback }

/-- The expression `state["messages"][-1]` followed by the guard
`isinstance(last_message, HumanMessage)`: `none` models the IndexError on an
empty message list; a non-human last message yields the empty string. -/
def currentQueryOf (msgs : List Message) : Option String :=
  match msgs.getLast? with
  | none => none
  | some m => some (if m.kind = MsgKind.human then m.content else "")

/-- `classification` from agent.py, with the structured LLM verdict passed in
as the boolean `needs_search`.  It returns a Command: a goto label together
with the update dict, which lists only the keys the branch sets. -/
def classification (needs_search : Bool) (state : AgentState) :
    Option (String × StateUpdate) :=
  match currentQueryOf state.messages with
  | none => none
  | some current_query =>
    if needs_search then
      some ("planning",
        { original_query := some current_query
          planned_queries := some []
          search_results := some []
          search_count := some 0
          needs_search := some true })
    else
      some ("direct_answer",
        { original_query := some current_query
          needs_search := some false })

/-- Query parsing in `planning`: strip the response, split on newlines,
strip each line, drop empty lines, keep at most 3 queries. -/
def parsePlannedQueries (response : String) : List String :=
  ((((response.trim).splitOn "\n").map String.trim).filter (fun q => q ≠ "")).take 3

/-- `planning` from agent.py, with the streamed LLM response passed in as
`response` and the engine id of the appended AIMessage as `freshId`. -/
def planning (response : String) (freshId : Nat) (state : AgentState) :
    Option StateUpdate :=
  match currentQueryOf state.messages with
  | none => none
  | some current_query =>
    let queries := parsePlannedQueries response
    some (create_state_update state
      { messages := some [aiMsg freshId
          ("Planned " ++ toString queries.length ++ " search queries")]
        original_query := some current_query
        planned_queries := some queries
        search_results := some []
        search_count := some 0
        user_feedback := some "" })

/-- The externally supplied resume value at the `human_review` interrupt:
either a dict (an ordered association list) or a raw value. -/
inductive ResumeValue where
  | vdict : List (String × String) → ResumeValue
  | vraw : String → ResumeValue
deriving DecidableEq, Repr

/-- The resume-unwrapping in `human_review`: a dict is reduced to its first
value via `next(iter(d.values()))`, which raises StopIteration (`none`) on
an empty dict; any other value is used as is. -/
def extractResume : ResumeValue → Option String
  | ResumeValue.vdict [] => none
  | ResumeValue.vdict ((_, v) :: _) => some v
  | ResumeValue.vraw v => some v

/-- `human_review` from agent.py after the interrupt returns: unwrap the
resume value and store it into `user_feedback` via `create_state_update`. -/
def human_review (resume : ResumeValue) (state : AgentState) : Option StateUpdate :=
  (extractResume resume).map
    (fun fb => create_state_update state { user_feedback := some fb })

/-- Python `str.lower()` on the ASCII strings this workflow compares. -/
def strLower (s : String) : String :=
  String.mk (s.data.map Char.toLower)

/-- The default free-text fallback stored when the resume value is empty. -/
def reviseDefault : String :=
  "Please revise the queries"

/-- `process_feedback_node` from agent.py (the episode store call is a
best-effort side effect with no influence on the returned dict and is not
modelled).  `freshId` is the engine id of the HumanMessage appended in the
feedback branch; empty input falls back to the default revision prompt. -/
def process_feedback_node (freshId : Nat) (state : AgentState) : StateUpdate :=
  if state.user_feedback ≠ "" ∧ strLower state.user_feedback = "approve" then
    create_state_update state {}
  else if state.user_feedback ≠ "" ∧ strLower state.user_feedback = "skip" then
    create_state_update state {}
  else
    create_state_update state
      { messages := some (state.messages ++
          [humanMsg freshId ("User feedback on planned queries: " ++
            (if state.user_feedback ≠ "" then state.user_feedback else reviseDefault))])
        user_feedback :=
          some (if state.user_feedback ≠ "" then state.user_feedback else reviseDefault) }

/-- `search_execution_node` from agent.py, with the search-provider response
for the current query passed in as `results` and the engine id of the
appended ToolMessage as `freshId`.  With no query left it returns the
incoming state itself; otherwise it runs one search, appends the result pair
and increments the cursor. -/
def search_execution_node (results : String) (freshId : Nat) (state : AgentState) :
    StateUpdate :=
  if state.planned_queries.length ≤ state.search_count then
    stateToUpdate state
  else
    let current_query := state.planned_queries.getD state.search_count ""
    create_state_update state
      { messages := some [toolMsg freshId results ("search_" ++ toString state.search_count)]
        search_count := some (state.search_count + 1)
        search_results := some (state.search_results ++
          [{ query := current_query, results := results }]) }

/-- `pre_summarize_node` from agent.py: passes the state through unchanged
via `create_state_update`. -/
def pre_summarize_node (state : AgentState) : StateUpdate :=
  create_state_update state {}

/-- `after_process_feedback` from agent.py: free text goes back to planning,
skip answers directly, otherwise search. -/
def after_process_feedback (state : AgentState) : String :=
  if state.user_feedback ≠ "" ∧ strLower state.user_feedback ≠ "approve" ∧
      strLower state.user_feedback ≠ "skip" then
    "planning"
  else if state.user_feedback ≠ "" ∧ strLower state.user_feedback = "skip" then
    "direct_answer"
  else
    "search"

/-- `after_search` from agent.py: keep searching while queries remain, go to
the pre-summarize signal once all of at least one query ran, otherwise fall
back to the terminal label. -/
def after_search (state : AgentState) : String :=
  if state.search_count < state.planned_queries.length then
    "search"
  else if state.planned_queries.length ≤ state.search_count ∧ 0 < state.search_count then
    "pre_summarize"
  else
    "__end__"

/-- The engine executing the search node once: apply its returned dict to
the incoming state. -/
def searchStep (results : String) (freshId : Nat) (s : AgentState) : AgentState :=
  applyUpdate s (search_execution_node results freshId s)

/-- The engine executing the search node repeatedly, one (results, id) pair
per invocation. -/
def searchIter (runs : List (String × Nat)) (s : AgentState) : AgentState :=
  runs.foldl (fun st p => searchStep p.1 p.2 st) s

/-- The engine executing `human_review` (when the resume value unwraps). -/
def humanReviewState (resume : ResumeValue) (s : AgentState) : Option AgentState :=
  (human_review resume s).map (applyUpdate s)

/-- The engine executing `process_feedback_node`. -/
def processFeedbackState (freshId : Nat) (s : AgentState) : AgentState :=
  applyUpdate s (process_feedback_node freshId s)

/-- The decision literal of `EpisodicDecision` in src/agent/app/memory.py. -/
inductive DecisionKind where
  | approve
  | skip
  | review
deriving DecidableEq, Repr

/-- Structured output of the episodic-decision LLM call, with confidence
modelled as a rational in place of the Python float. -/
structure EpisodicDecision where
  decision : DecisionKind
  confidence : ℚ
deriving DecidableEq, Repr

/-- `EpisodicReviewMemory` from memory.py (the fields relevant to the
advisor; the derived tags and timestamp carry no control flow). -/
structure EpisodicReviewMemory where
  original_query : String
  planned_searches : List String
  user_decision : String
  user_feedback_text : Option String := none
deriving DecidableEq, Repr

/-- `_llm_decide_with_episodes` from memory.py, with the LLM call passed in
as an `Except` (`.error` models a raised exception, caught locally and
mapped to `none`).  A decision is returned only when the confidence reaches
0.8 and the decision is approve or skip. -/
def llmDecideWithEpisodes (llmResult : Except Unit EpisodicDecision) :
    Option DecisionKind :=
  match llmResult with
  | Except.error _ => none
  | Except.ok d =>
    if (8 : ℚ)/10 ≤ d.confidence ∧
        (d.decision = DecisionKind.approve ∨ d.decision = DecisionKind.skip) then
      some d.decision
    else
      none

/-- `should_auto_decide` from memory.py: the episode lookup is passed in as
an `Except` (`.error` models a raised lookup exception, caught by the
surrounding try and mapped to `none`; a store that is unavailable or holds
only malformed episodes surfaces as `.ok []`).  Fewer than 3 similar
episodes yield `none`; otherwise the LLM decision gate runs. -/
def should_auto_decide (enabled : Bool)
    (findResult : Except Unit (List EpisodicReviewMemory))
    (llmResult : Except Unit EpisodicDecision) : Option DecisionKind :=
  if !enabled then
    none
  else
    match findResult with
    | Except.error _ => none
    | Except.ok episodes =>
      if episodes.length < 3 then
        none
      else
        llmDecideWithEpisodes llmResult

/-- Rendering of a decision literal as the string stored into state. -/
def decisionKindToString : DecisionKind → String
  | DecisionKind.approve => "approve"
  | DecisionKind.skip => "skip"
  | DecisionKind.review => "review"

/-- `memory_check_node` from agent.py: when memory is enabled and both the
query and the plan are non-empty, a non-none auto decision is stored into
`user_feedback`; otherwise the state passes through `create_state_update`
unchanged. -/
def memory_check_node (enabled : Bool)
    (findResult : Except Unit (List EpisodicReviewMemory))
    (llmResult : Except Unit EpisodicDecision) (state : AgentState) : StateUpdate :=
  if enabled = true ∧ state.original_query ≠ "" ∧ state.planned_queries ≠ [] then
    match should_auto_decide enabled findResult llmResult with
    | some d => create_state_update state { user_feedback := some (decisionKindToString d) }
    | none => create_state_update state {}
  else
    create_state_update state {}

/-! ### Helper lemmas about the search node -/

/-- With the cursor at or past the end of the plan, the search node returns
the incoming state dict itself. -/
lemma search_execution_node_noop (results : String) (freshId : Nat) (s : AgentState)
    (h : s.planned_queries.length ≤ s.search_count) :
    search_execution_node results freshId s = stateToUpdate s := by
  unfold search_execution_node
  rw [if_pos h]

/-- One engine-applied search step never changes the plan. -/
lemma searchStep_planned (results : String) (freshId : Nat) (s : AgentState) :
    (searchStep results freshId s).planned_queries = s.planned_queries := by
  unfold searchStep search_execution_node
  split_ifs <;> simp [applyUpdate, create_state_update, stateToUpdate]

/-- With a query pending, one engine-applied search step increments the
cursor by exactly one. -/
lemma searchStep_count_pending (results : String) (freshId : Nat) (s : AgentState)
    (h : s.search_count < s.planned_queries.length) :
    (searchStep results freshId s).search_count = s.search_count + 1 := by
  unfold searchStep search_execution_node
  rw [if_neg (by omega)]
  simp [applyUpdate, create_state_update]

/-- With no query pending, one engine-applied search step leaves the cursor
unchanged. -/
lemma searchStep_count_exhausted (results : String) (freshId : Nat) (s : AgentState)
    (h : s.planned_queries.length ≤ s.search_count) :
    (searchStep results freshId s).search_count = s.search_count := by
  unfold searchStep
  rw [search_execution_node_noop results freshId s h]
  simp [applyUpdate, stateToUpdate]

/-- With a query pending, one engine-applied search step appends exactly one
result pair. -/
lemma searchStep_results_pending (results : String) (freshId : Nat) (s : AgentState)
    (h : s.search_count < s.planned_queries.length) :
    (searchStep results freshId s).search_results =
      s.search_results ++
        [{ query := s.planned_queries.getD s.search_count "", results := results }] := by
  unfold searchStep search_execution_node
  rw [if_neg (by omega)]
  simp [applyUpdate, create_state_update]

/-- One engine-applied search step preserves the cursor bound. -/
lemma searchStep_invariant (results : String) (freshId : Nat) (s : AgentState)
    (h : s.search_count ≤ s.planned_queries.length) :
    (searchStep results freshId s).search_count ≤
      (searchStep results freshId s).planned_queries.length := by
  rw [searchStep_planned]
  by_cases hlt : s.search_count < s.planned_queries.length
  · rw [searchStep_count_pending results freshId s hlt]
    omega
  · rw [searchStep_count_exhausted results freshId s (by omega)]
    omega

/-- Any number of engine-applied search steps preserves the cursor bound. -/
lemma searchIter_invariant (runs : List (String × Nat)) (s : AgentState)
    (h : s.search_count ≤ s.planned_queries.length) :
    (searchIter runs s).search_count ≤ (searchIter runs s).planned_queries.length := by
  induction runs generalizing s with
  | nil => exact h
  | cons p ps ih =>
    exact ih (searchStep p.1 p.2 s) (searchStep_invariant p.1 p.2 s h)

/-! ### Helper lemmas about feedback processing and routing -/

/-- Reading `user_feedback` through an engine-applied `create_state_update`
dict yields the override when present and the incoming value otherwise. -/
lemma applyUpdate_create_user_feedback (s : AgentState) (u : StateUpdate) :
    (applyUpdate s (create_state_update s u)).user_feedback =
      u.user_feedback.getD s.user_feedback := by
  simp [applyUpdate, create_state_update]

/-- `user_feedback` after the engine applies `process_feedback_node`: kept
on approve or skip and on non-empty free text, replaced by the default
revision prompt on empty input. -/
lemma processFeedbackState_user_feedback (freshId : Nat) (s : AgentState) :
    (processFeedbackState freshId s).user_feedback =
      if s.user_feedback = "" then reviseDefault else s.user_feedback := by
  unfold processFeedbackState process_feedback_node
  by_cases h0 : s.user_feedback = ""
  · rw [if_neg (fun hc => hc.1 h0), if_neg (fun hc => hc.1 h0), if_pos h0,
      if_neg (fun hc => hc h0)]
    simp [applyUpdate_create_user_feedback, h0]
  · rw [if_neg h0]
    by_cases ha : strLower s.user_feedback = "approve"
    · rw [if_pos ⟨h0, ha⟩]
      simp [applyUpdate_create_user_feedback, h0]
    · by_cases hs : strLower s.user_feedback = "skip"
      · rw [if_neg (fun hc => ha hc.2), if_pos ⟨h0, hs⟩]
        simp [applyUpdate_create_user_feedback, h0]
      · rw [if_neg (fun hc => ha hc.2), if_neg (fun hc => hs hc.2), if_pos h0]
        simp [applyUpdate_create_user_feedback, h0]

/-- The feedback router on a state whose feedback lowercases to approve. -/
lemma after_process_feedback_approve (s : AgentState)
    (h : strLower s.user_feedback = "approve") :
    after_process_feedback s = "search" := by
  unfold after_process_feedback
  rw [if_neg (fun hc => hc.2.1 h), if_neg (fun hc => absurd (h.symm.trans hc.2) (by decide))]

/-- The feedback router on a state whose feedback lowercases to skip. -/
lemma after_process_feedback_skip (s : AgentState)
    (h : strLower s.user_feedback = "skip") :
    after_process_feedback s = "direct_answer" := by
  have hne : s.user_feedback ≠ "" := fun h0 => absurd (h0 ▸ h) (by decide)
  unfold after_process_feedback
  rw [if_neg (fun hc => hc.2.2 h), if_pos ⟨hne, h⟩]

/-- The feedback router on a state with non-empty feedback that is neither
approve nor skip. -/
lemma after_process_feedback_text (s : AgentState)
    (hne : s.user_feedback ≠ "")
    (hna : strLower s.user_feedback ≠ "approve")
    (hns : strLower s.user_feedback ≠ "skip") :
    after_process_feedback s = "planning" := by
  unfold after_process_feedback
  rw [if_pos ⟨hne, hna, hns⟩]

/-! ### Concrete states used by witnesses and counterexamples -/

/-- A state mid-search-phase: two planned queries, none executed yet. -/
def sampleState : AgentState :=
  { messages := [humanMsg 0 "What is the weather in Paris?"]
    search_count := 0
    original_query := "What is the weather in Paris?"
    planned_queries := ["Paris weather today", "Paris weather forecast"]
    search_results := []
    needs_search := true
    user_feedback := "" }

/-- A state whose plan is exhausted: both planned queries already ran. -/
def exhaustedState : AgentState :=
  { messages := [humanMsg 0 "What is the weather in Paris?"]
    search_count := 2
    original_query := "What is the weather in Paris?"
    planned_queries := ["Paris weather today", "Paris weather forecast"]
    search_results :=
      [{ query := "Paris weather today", results := "sunny" },
       { query := "Paris weather forecast", results := "rain tomorrow" }]
    needs_search := true
    user_feedback := "" }

/-- A state with an empty plan and a zero cursor, as in the defensive
fallback branch of the search router. -/
def emptyPlanState : AgentState :=
  { messages := [humanMsg 0 "What is the weather in Paris?"]
    search_count := 0
    original_query := "What is the weather in Paris?"
    planned_queries := []
    search_results := []
    needs_search := true
    user_feedback := "" }

/-! ### Claim theorems -/

/-- Claim C1: starting from a state with `search_results.length` equal to
`search_count` and a query still pending, the engine-applied search-execute
step returns a state in which `search_results.length` again equals
`search_count`: the equality holds immediately after each invocation of the
search node and before the next. -/
theorem c1_search_results_length_invariant (results : String) (freshId : Nat)
    (s : AgentState)
    (hlen : s.search_results.length = s.search_count)
    (hlt : s.search_count < s.planned_queries.length) :
    (searchStep results freshId s).search_results.length =
      (searchStep results freshId s).search_count := by
  rw [searchStep_results_pending results freshId s hlt,
    searchStep_count_pending results freshId s hlt]
  simp [hlen]

/-- Witness for C1 at a concrete state with two pending queries. -/
theorem c1_witness :
    sampleState.search_results.length = sampleState.search_count ∧
      sampleState.search_count < sampleState.planned_queries.length ∧
      (searchStep "sunny" 1 sampleState).search_results.length =
        (searchStep "sunny" 1 sampleState).search_count :=
  ⟨by decide, by decide,
    c1_search_results_length_invariant "sunny" 1 sampleState (by decide) (by decide)⟩

/-- Claim C2: the `after_search` router selects the self-loop exactly when
`search_count < planned_queries.length`; the search node increments the
cursor by exactly one when a query is pending and leaves it unchanged
otherwise; hence the bound `search_count ≤ planned_queries.length` is
preserved by one search step and by any sequence of search steps. -/
theorem c2_search_routing_and_bound :
    (∀ s : AgentState,
        after_search s = "search" ↔ s.search_count < s.planned_queries.length) ∧
      (∀ (results : String) (freshId : Nat) (s : AgentState),
        s.search_count < s.planned_queries.length →
          (searchStep results freshId s).search_count = s.search_count + 1) ∧
      (∀ (results : String) (freshId : Nat) (s : AgentState),
        ¬ s.search_count < s.planned_queries.length →
          (searchStep results freshId s).search_count = s.search_count) ∧
      (∀ (results : String) (freshId : Nat) (s : AgentState),
        s.search_count ≤ s.planned_queries.length →
          (searchStep results freshId s).search_count ≤
            (searchStep results freshId s).planned_queries.length) ∧
      (∀ (runs : List (String × Nat)) (s : AgentState),
        s.search_count ≤ s.planned_queries.length →
          (searchIter runs s).search_count ≤
            (searchIter runs s).planned_queries.length) := by
  refine ⟨?_, ?_, ?_, ?_, ?_⟩
  · intro s
    unfold after_search
    split_ifs with h1 h2
    · exact iff_of_true rfl h1
    · exact iff_of_false (by decide) h1
    · exact iff_of_false (by decide) h1
  · exact searchStep_count_pending
  · intro results freshId s h
    exact searchStep_count_exhausted results freshId s (by omega)
  · exact searchStep_invariant
  · exact searchIter_invariant

/-- Witness for C2 at concrete states on both sides of the bound. -/
theorem c2_witness :
    after_search sampleState = "search" ∧
      (searchStep "sunny" 1 sampleState).search_count = 1 ∧
      (searchStep "sunny" 1 exhaustedState).search_count = 2 ∧
      (searchIter [("sunny", 1), ("rain", 2), ("wind", 3)] sampleState).search_count ≤
        (searchIter [("sunny", 1), ("rain", 2), ("wind", 3)]
          sampleState).planned_queries.length :=
  ⟨(c2_search_routing_and_bound.1 sampleState).mpr (by decide),
    by rw [c2_search_routing_and_bound.2.1 "sunny" 1 sampleState (by decide)]; decide,
    by rw [c2_search_routing_and_bound.2.2.1 "sunny" 1 exhaustedState (by decide)]; decide,
    c2_search_routing_and_bound.2.2.2.2 [("sunny", 1), ("rain", 2), ("wind", 3)]
      sampleState (by decide)⟩

/-- Claim C8: invoked with zero planned queries and a zero cursor, the
search router falls back to the terminal label, and the search node runs no
search and returns the incoming state dict unchanged, so the workflow
reaches a terminal state instead of looping or raising. -/
theorem c8_empty_plan_terminates (results : String) (freshId : Nat) (s : AgentState)
    (hq : s.planned_queries = []) (hc : s.search_count = 0) :
    after_search s = "__end__" ∧
      search_execution_node results freshId s = stateToUpdate s := by
  constructor
  · unfold after_search
    rw [if_neg (by simp [hq]), if_neg (by simp [hc])]
  · exact search_execution_node_noop results freshId s (by simp [hq])

/-- Witness for C8 at the concrete empty-plan state. -/
theorem c8_witness :
    emptyPlanState.planned_queries = [] ∧ emptyPlanState.search_count = 0 ∧
      after_search emptyPlanState = "__end__" ∧
      search_execution_node "unused" 1 emptyPlanState = stateToUpdate emptyPlanState :=
  ⟨by decide, by decide,
    (c8_empty_plan_terminates "unused" 1 emptyPlanState rfl rfl).1,
    (c8_empty_plan_terminates "unused" 1 emptyPlanState rfl rfl).2⟩

/-- Claim C10: invoked with `search_count` at or past the end of the plan,
the search node executes no search and returns the incoming state dict with
every field identical to the input. -/
theorem c10_exhausted_returns_state_unchanged (results : String) (freshId : Nat)
    (s : AgentState) (h : s.planned_queries.length ≤ s.search_count) :
    search_execution_node results freshId s = stateToUpdate s :=
  search_execution_node_noop results freshId s h

/-- Witness for C10 at the concrete exhausted state. -/
theorem c10_witness :
    exhaustedState.planned_queries.length ≤ exhaustedState.search_count ∧
      search_execution_node "unused" 7 exhaustedState = stateToUpdate exhaustedState :=
  ⟨by decide,
    c10_exhausted_returns_state_unchanged "unused" 7 exhaustedState (by decide)⟩

/-- Claim C3: once `human_review` stores an unwrapped resume value into
`user_feedback` and `process_feedback_node` runs, the `after_process_feedback`
router selects search when the feedback lowercases to approve, direct answer
when it lowercases to skip, and planning for any other non-empty text, that
text remaining available in `user_feedback` for the next planning pass. -/
theorem c3_resume_feedback_routing (resume : ResumeValue) (s : AgentState)
    (fb : String) (freshId : Nat)
    (h : extractResume resume = some fb) :
    ∃ s1, humanReviewState resume s = some s1 ∧ s1.user_feedback = fb ∧
      (strLower fb = "approve" →
        after_process_feedback (processFeedbackState freshId s1) = "search") ∧
      (strLower fb = "skip" →
        after_process_feedback (processFeedbackState freshId s1) = "direct_answer") ∧
      (fb ≠ "" → strLower fb ≠ "approve" → strLower fb ≠ "skip" →
        after_process_feedback (processFeedbackState freshId s1) = "planning" ∧
          (processFeedbackState freshId s1).user_feedback = fb) := by
  have hs1 : (applyUpdate s (create_state_update s { user_feedback := some fb })).user_feedback
      = fb := by
    simp [applyUpdate_create_user_feedback]
  refine ⟨applyUpdate s (create_state_update s { user_feedback := some fb }),
    ?_, hs1, ?_, ?_, ?_⟩
  · unfold humanReviewState human_review
    rw [h]
    rfl
  · intro hap
    have hne : fb ≠ "" := fun h0 => absurd (h0 ▸ hap) (by decide)
    have hx : (processFeedbackState freshId
        (applyUpdate s (create_state_update s { user_feedback := some fb }))).user_feedback
          = fb := by
      rw [processFeedbackState_user_feedback, hs1, if_neg hne]
    exact after_process_feedback_approve _ (by rw [hx, hap])
  · intro hsk
    have hne : fb ≠ "" := fun h0 => absurd (h0 ▸ hsk) (by decide)
    have hx : (processFeedbackState freshId
        (applyUpdate s (create_state_update s { user_feedback := some fb }))).user_feedback
          = fb := by
      rw [processFeedbackState_user_feedback, hs1, if_neg hne]
    exact after_process_feedback_skip _ (by rw [hx, hsk])
  · intro hne hna hns
    have hx : (processFeedbackState freshId
        (applyUpdate s (create_state_update s { user_feedback := some fb }))).user_feedback
          = fb := by
      rw [processFeedbackState_user_feedback, hs1, if_neg hne]
    exact ⟨after_process_feedback_text _ (by rw [hx]; exact hne)
      (by rw [hx]; exact hna) (by rw [hx]; exact hns), hx⟩

/-- Witness for C3: resuming with the raw value APPROVE routes to search,
with skip wrapped in a resume dict routes to direct answer, and with free
text routes back to planning carrying the text. -/
theorem c3_witness :
    (∃ s1, humanReviewState (ResumeValue.vraw "APPROVE") sampleState = some s1 ∧
      s1.user_feedback = "APPROVE" ∧
      after_process_feedback (processFeedbackState 1 s1) = "search") ∧
    (∃ s2, humanReviewState (ResumeValue.vdict [("resume", "skip")]) sampleState = some s2 ∧
      after_process_feedback (processFeedbackState 1 s2) = "direct_answer") ∧
    (∃ s3, humanReviewState (ResumeValue.vraw "add more about pricing") sampleState
        = some s3 ∧
      after_process_feedback (processFeedbackState 1 s3) = "planning" ∧
      (processFeedbackState 1 s3).user_feedback = "add more about pricing") := by
  refine ⟨?_, ?_, ?_⟩
  · obtain ⟨s1, h1, h2, h3, -, -⟩ :=
      c3_resume_feedback_routing (ResumeValue.vraw "APPROVE") sampleState "APPROVE" 1 rfl
    exact ⟨s1, h1, h2, h3 (by decide)⟩
  · obtain ⟨s2, h1, -, -, h4, -⟩ :=
      c3_resume_feedback_routing (ResumeValue.vdict [("resume", "skip")]) sampleState
        "skip" 1 rfl
    exact ⟨s2, h1, h4 (by decide)⟩
  · obtain ⟨s3, h1, -, -, -, h5⟩ :=
      c3_resume_feedback_routing (ResumeValue.vraw "add more about pricing") sampleState
        "add more about pricing" 1 rfl
    obtain ⟨ha, hb⟩ := h5 (by decide) (by decide) (by decide)
    exact ⟨s3, h1, ha, hb⟩

/-- Claim C4: every successful planning execution returns an update whose
planned query list has length at most 3, whose search results are empty,
whose search cursor is 0, and whose user feedback is cleared to the empty
string, regardless of the prior values of those fields. -/
theorem c4_planning_postconditions (response : String) (freshId : Nat)
    (s : AgentState) (u : StateUpdate)
    (h : planning response freshId s = some u) :
    (∃ qs, u.planned_queries = some qs ∧ qs.length ≤ 3) ∧
      u.search_results = some [] ∧ u.search_count = some 0 ∧
      u.user_feedback = some "" := by
  unfold planning at h
  cases hq : currentQueryOf s.messages with
  | none =>
    rw [hq] at h
    exact absurd h (by simp)
  | some q =>
    rw [hq] at h
    simp only [Option.some.injEq] at h
    refine ⟨⟨parsePlannedQueries response, ?_, ?_⟩, ?_, ?_, ?_⟩
    · rw [← h]
      simp [create_state_update]
    · unfold parsePlannedQueries
      simp only [List.length_take]
      omega
    · rw [← h]
      simp [create_state_update]
    · rw [← h]
      simp [create_state_update]
    · rw [← h]
      simp [create_state_update]

/-- Witness for C4: a four-line model response is cut down to three planned
queries and the bookkeeping fields are reset. -/
theorem c4_witness :
    ∃ u, planning "q one\nq two\nq three\nq four" 9 sampleState = some u ∧
      ((∃ qs, u.planned_queries = some qs ∧ qs.length ≤ 3) ∧
        u.search_results = some [] ∧ u.search_count = some 0 ∧
        u.user_feedback = some "") := by
  refine ⟨_, rfl, ?_⟩
  exact c4_planning_postconditions "q one\nq two\nq three\nq four" 9 sampleState _ rfl

/-- Counterexample to claim C5: `classification` does not go through
`create_state_update`; in both routing branches its returned update omits
state keys (among them `user_feedback` and `messages`), so not every step
produces a complete replacement of the workflow state. -/
theorem c5_counterexample :
    (classification false sampleState).map (fun p => p.2.isComplete) = some false ∧
      (classification true sampleState).map (fun p => p.2.isComplete) = some false ∧
      (classification false sampleState).map (fun p => p.2.user_feedback) =
        some none := by
  refine ⟨rfl, rfl, rfl⟩

/-- Claim C5 as amended: every embedded step except `classification` returns
its update through `create_state_update`, which emits all seven state keys
and carries forward, unchanged, every key the step does not override;
`classification` alone returns a partial update holding only the keys its
branch sets, relying on the engine to preserve the rest. -/
theorem c5_amended_complete_updates :
    (∀ (s : AgentState) (u : StateUpdate), (create_state_update s u).isComplete = true) ∧
      (∀ (s : AgentState) (u : StateUpdate), u.messages = none →
        (create_state_update s u).messages = some s.messages) ∧
      (∀ (s : AgentState) (u : StateUpdate), u.search_count = none →
        (create_state_update s u).search_count = some s.search_count) ∧
      (∀ (s : AgentState) (u : StateUpdate), u.original_query = none →
        (create_state_update s u).original_query = some s.original_query) ∧
      (∀ (s : AgentState) (u : StateUpdate), u.planned_queries = none →
        (create_state_update s u).planned_queries = some s.planned_queries) ∧
      (∀ (s : AgentState) (u : StateUpdate), u.search_results = none →
        (create_state_update s u).search_results = some s.search_results) ∧
      (∀ (s : AgentState) (u : StateUpdate), u.needs_search = none →
        (create_state_update s u).needs_search = some s.needs_search) ∧
      (∀ (s : AgentState) (u : StateUpdate), u.user_feedback = none →
        (create_state_update s u).user_feedback = some s.user_feedback) ∧
      (∀ (freshId : Nat) (s : AgentState),
        (process_feedback_node freshId s).isComplete = true) ∧
      (∀ (results : String) (freshId : Nat) (s : AgentState),
        (search_execution_node results freshId s).isComplete = true) ∧
      (∀ s : AgentState, (pre_summarize_node s).isComplete = true) ∧
      (∀ (e : Bool) (f : Except Unit (List EpisodicReviewMemory))
          (l : Except Unit EpisodicDecision) (s : AgentState),
        (memory_check_node e f l s).isComplete = true) ∧
      (∀ (resume : ResumeValue) (s : AgentState) (u : StateUpdate),
        human_review resume s = some u → u.isComplete = true) ∧
      (∀ (response : String) (freshId : Nat) (s : AgentState) (u : StateUpdate),
        planning response freshId s = some u → u.isComplete = true) := by
  have hcsu : ∀ (s : AgentState) (u : StateUpdate),
      (create_state_update s u).isComplete = true := by
    intro s u
    rfl
  refine ⟨hcsu, ?_, ?_, ?_, ?_, ?_, ?_, ?_, ?_, ?_, ?_, ?_, ?_, ?_⟩
  · intro s u h
    simp [create_state_update, h]
  · intro s u h
    simp [create_state_update, h]
  · intro s u h
    simp [create_state_update, h]
  · intro s u h
    simp [create_state_update, h]
  · intro s u h
    simp [create_state_update, h]
  · intro s u h
    simp [create_state_update, h]
  · intro s u h
    simp [create_state_update, h]
  · intro freshId s
    unfold process_feedback_node
    split_ifs <;> exact hcsu _ _
  · intro results freshId s
    unfold search_execution_node
    split_ifs
    · rfl
    · exact hcsu _ _
  · intro s
    exact hcsu _ _
  · intro e f l s
    unfold memory_check_node
    split_ifs
    · cases should_auto_decide e f l <;> exact hcsu _ _
    · exact hcsu _ _
  · intro resume s u h
    unfold human_review at h
    cases hr : extractResume resume with
    | none =>
      rw [hr] at h
      exact absurd h (by simp)
    | some fb =>
      rw [hr] at h
      simp only [Option.map_some', Option.some.injEq] at h
      rw [← h]
      exact hcsu _ _
  · intro response freshId s u h
    unfold planning at h
    cases hq : currentQueryOf s.messages with
    | none =>
      rw [hq] at h
      exact absurd h (by simp)
    | some q =>
      rw [hq] at h
      simp only [Option.some.injEq] at h
      rw [← h]
      exact hcsu _ _

/-- Witness for the amended C5 at concrete inputs: a carried-forward field
of `create_state_update` and the completeness of one step update. -/
theorem c5_witness :
    (create_state_update sampleState { search_count := some 5 }).user_feedback =
        some sampleState.user_feedback ∧
      (process_feedback_node 3 sampleState).isComplete = true := by
  obtain ⟨-, -, -, -, -, -, -, huf, hpf, -⟩ := c5_amended_complete_updates
  exact ⟨huf sampleState { search_count := some 5 } rfl, hpf 3 sampleState⟩

/-- A concrete stored episode used by the C6 witness. -/
def sampleEpisode : EpisodicReviewMemory :=
  { original_query := "What is the weather in Paris?"
    planned_searches := ["Paris weather today"]
    user_decision := "approve" }

/-- Claim C6: the episodic advisor returns a decision exactly when memory is
enabled, the episode lookup succeeded with at least 3 similar episodes, and
the LLM call succeeded with confidence at least 0.8 on an approve or skip
decision; every failure mode (disabled memory, lookup error, empty or short
episode list, LLM error, low confidence, review decision) yields `none`
instead of propagating. -/
theorem c6_advisor_gate (enabled : Bool)
    (findResult : Except Unit (List EpisodicReviewMemory))
    (llmResult : Except Unit EpisodicDecision) (d : DecisionKind) :
    should_auto_decide enabled findResult llmResult = some d ↔
      (enabled = true ∧
        (∃ episodes, findResult = Except.ok episodes ∧ 3 ≤ episodes.length) ∧
        (∃ dec, llmResult = Except.ok dec ∧ (8 : ℚ)/10 ≤ dec.confidence ∧
          dec.decision = d ∧
          (d = DecisionKind.approve ∨ d = DecisionKind.skip))) := by
  constructor
  · intro h
    unfold should_auto_decide at h
    cases enabled with
    | false => simp at h
    | true =>
      cases findResult with
      | error e => simp at h
      | ok episodes =>
        simp only [Bool.not_true, Bool.false_eq_true, if_false] at h
        by_cases h3 : episodes.length < 3
        · rw [if_pos h3] at h
          exact absurd h (by simp)
        · rw [if_neg h3] at h
          unfold llmDecideWithEpisodes at h
          cases llmResult with
          | error e => simp at h
          | ok dec =>
            dsimp only at h
            by_cases hg : (8 : ℚ)/10 ≤ dec.confidence ∧
                (dec.decision = DecisionKind.approve ∨ dec.decision = DecisionKind.skip)
            · rw [if_pos hg] at h
              have hd : dec.decision = d := by
                injection h
              exact ⟨rfl, ⟨episodes, rfl, by omega⟩,
                ⟨dec, rfl, hg.1, hd, hd ▸ hg.2⟩⟩
            · rw [if_neg hg] at h
              exact absurd h (by simp)
  · rintro ⟨he, ⟨episodes, hf, h3⟩, ⟨dec, hl, hc, hd, hds⟩⟩
    subst he hf hl hd
    unfold should_auto_decide llmDecideWithEpisodes
    simp only [Bool.not_true, Bool.false_eq_true, if_false]
    rw [if_neg (by omega), if_pos ⟨hc, hds⟩]

/-- Witness for C6: three similar episodes and a confident approve decision
produce an auto-approve, and a failed lookup produces no decision. -/
theorem c6_witness :
    should_auto_decide true (Except.ok [sampleEpisode, sampleEpisode, sampleEpisode])
        (Except.ok { decision := DecisionKind.approve, confidence := (9 : ℚ)/10 }) =
      some DecisionKind.approve ∧
      should_auto_decide true (Except.error ())
        (Except.ok { decision := DecisionKind.approve, confidence := (9 : ℚ)/10 }) =
        none := by
  constructor
  · exact (c6_advisor_gate true _ _ DecisionKind.approve).mpr
      ⟨rfl, ⟨[sampleEpisode, sampleEpisode, sampleEpisode], rfl, by simp⟩,
        ⟨{ decision := DecisionKind.approve, confidence := (9 : ℚ)/10 }, rfl,
          by norm_num, rfl, Or.inl rfl⟩⟩
  · cases h : should_auto_decide true (Except.error ())
        (Except.ok { decision := DecisionKind.approve, confidence := (9 : ℚ)/10 }) with
    | none => rfl
    | some d =>
      obtain ⟨-, ⟨episodes, heq, -⟩, -⟩ := (c6_advisor_gate _ _ _ d).mp h
      exact absurd heq (by simp)

/-- Counterexample to claim C7: resuming with an empty dict does not
recover; `next(iter(d.values()))` raises StopIteration, modelled by
`human_review` returning `none`. -/
theorem c7_counterexample :
    human_review (ResumeValue.vdict []) sampleState = none := rfl

/-- Claim C7 as amended: a resume value that is a non-empty dict is reduced
to its first contained value and any non-dict value is used as the raw
feedback, the result stored into `user_feedback` of the returned update; an
empty dict alone makes `human_review` raise instead of recovering. -/
theorem c7_amended_resume_handling :
    (∀ (k v : String) (rest : List (String × String)) (s : AgentState),
      ∃ u, human_review (ResumeValue.vdict ((k, v) :: rest)) s = some u ∧
        u.user_feedback = some v) ∧
      (∀ (v : String) (s : AgentState),
        ∃ u, human_review (ResumeValue.vraw v) s = some u ∧
          u.user_feedback = some v) := by
  constructor
  · intro k v rest s
    exact ⟨_, rfl, by simp [create_state_update]⟩
  · intro v s
    exact ⟨_, rfl, by simp [create_state_update]⟩

/-- The state handed to `process_feedback_node` in the C9 scenario: the
top-level question was set at classification and the reviewer answered with
free text. -/
def c9PreState : AgentState :=
  { messages := [humanMsg 0 "What is the weather in Paris?"]
    search_count := 0
    original_query := "What is the weather in Paris?"
    planned_queries := ["Paris weather today"]
    search_results := []
    needs_search := true
    user_feedback := "add more about pricing" }

/-- The state in which `planning` is re-entered after the free-text
feedback: `process_feedback_node` appended the feedback as a HumanMessage,
so it is now the last message. -/
def c9State : AgentState :=
  { messages := [humanMsg 0 "What is the weather in Paris?",
      humanMsg 1 "User feedback on planned queries: add more about pricing"]
    search_count := 0
    original_query := "What is the weather in Paris?"
    planned_queries := ["Paris weather today"]
    search_results := []
    needs_search := true
    user_feedback := "add more about pricing" }

/-- Claim C9 fails on the code: after free-text feedback within the same
cycle, the engine-applied `process_feedback_node` yields `c9State`, whose
last message is the appended feedback message; re-entered `planning` then
sets `original_query` to that last message content instead of keeping the
top-level question set at classification. -/
theorem c9_replanning_overwrites_original_query :
    processFeedbackState 1 c9PreState = c9State ∧
      ∃ u, planning "Paris weather forecast" 2 c9State = some u ∧
        u.original_query =
          some "User feedback on planned queries: add more about pricing" ∧
        c9State.original_query = "What is the weather in Paris?" := by
  refine ⟨by decide, _, rfl, rfl, rfl⟩

end Relate
